import Mathlib

/-!
Verification of the cookiedialog consent lifecycle engine.

This file is a shallow embedding of the core of the repository:
`src/storage.ts` (class `ConsentStorage`), `src/geolocation.ts` (class
`GeolocationService`) and the startup decision procedure of `src/index.ts`
(method `CookieDialog.init`).  Browser state (localStorage, the geolocation
fetch, wall-clock time, the configured callbacks) is passed explicitly;
stateful methods become functions from state to result-and-state, and the
orchestrator additionally produces a trace of observable events.
-/

namespace CookieDialog

/-- The wire reason tags of a persisted record (`types.ts`, field `reason`). -/
inductive Reason where
  | user_accept
  | user_reject
  | location_not_required
deriving DecidableEq, Repr

/-- `locationData` attached to a record (`types.ts`, `ConsentState.locationData`). -/
structure LocationData where
  country : Option String
  region : Option String
  inEU : Bool
  detectionMethod : String
deriving DecidableEq, Repr

/-- A category mapping: a JavaScript object from category id to boolean,
modelled as an association list with unique keys in insertion order. -/
abbrev Categories := List (String × Bool)

/-- `categories[id]` as an optional boolean: property lookup on a
JavaScript object (undefined becomes `none`). -/
def lookupCat (m : Categories) (id : String) : Option Bool :=
  match m with
  | [] => none
  | p :: rest => if p.1 = id then some p.2 else lookupCat rest id

/-- JavaScript object assignment `m[id] = v` (keys are unique in an
object): overwrite in place keeping the insertion position, otherwise
append at the end. -/
def setCat (m : Categories) (id : String) (v : Bool) : Categories :=
  match m with
  | [] => [(id, v)]
  | p :: rest => if p.1 = id then (id, v) :: rest else p :: setCat rest id v

/-- The persisted consent record (`types.ts`, interface `ConsentState`). -/
structure ConsentState where
  timestamp : Nat
  categories : Categories
  version : String
  reason : Reason
  locationData : Option LocationData
deriving DecidableEq, Repr

/-- `STORAGE_VERSION` in `storage.ts`. -/
def STORAGE_VERSION : String := "1.0.0"

/-- What sits under the storage key: either bytes that fail `JSON.parse`
or the JSON encoding of a record (round-tripping a record through
stringify/parse is the identity on this data model). -/
inductive StoredVal where
  | malformed
  | record (c : ConsentState)
deriving DecidableEq, Repr

/-- The content of localStorage under the fixed key `cookiedialog_consent`:
`none` when the key is absent. -/
abbrev Store := Option StoredVal

/-- `ConsentStorage.getConsent` (storage.ts lines 13-38): read, parse,
expiry check (clearing on expiry), version check (clearing on mismatch).
Returns the record-or-null together with the storage state afterwards.
A parse failure is caught and returns null without touching the store. -/
def getConsent (expiryDays : Nat) (now : Nat) (store : Store) :
    Option ConsentState × Store :=
  match store with
  | none => (none, none)
  | some .malformed => (none, some .malformed)
  | some (.record c) =>
      let expiryTime := c.timestamp + expiryDays * 24 * 60 * 60 * 1000
      if now > expiryTime then
        (none, none)
      else if c.version ≠ STORAGE_VERSION then
        (none, none)
      else
        (some c, some (.record c))

/-- `ConsentStorage.saveConsent` (storage.ts lines 40-56): build the record
with the given categories verbatim and persist it; a throwing
`localStorage.setItem` (modelled by `setFails`) is caught and the in-memory
record is returned with the store unchanged. -/
def saveConsent (now : Nat) (setFails : Bool) (store : Store)
    (categories : Categories) (reason : Reason)
    (locationData : Option LocationData) : ConsentState × Store :=
  let consent : ConsentState :=
    { timestamp := now
      categories := categories
      version := STORAGE_VERSION
      reason := reason
      locationData := locationData }
  if setFails then (consent, store) else (consent, some (.record consent))

/-- `ConsentStorage.clearConsent` (storage.ts lines 58-64). -/
def clearConsent (_store : Store) : Store := none

/-- `ConsentStorage.hasConsent` (storage.ts lines 66-68), with the storage
state after the embedded `getConsent` side effect. -/
def hasConsent (expiryDays : Nat) (now : Nat) (store : Store) : Bool × Store :=
  ((getConsent expiryDays now store).1.isSome, (getConsent expiryDays now store).2)

/-- `ConsentStorage.getCategoryConsent` (storage.ts lines 70-74). -/
def getCategoryConsent (expiryDays : Nat) (now : Nat) (store : Store)
    (categoryId : String) : Bool × Store :=
  match (getConsent expiryDays now store).1 with
  | none => (false, (getConsent expiryDays now store).2)
  | some consent =>
      (lookupCat consent.categories categoryId == some true,
        (getConsent expiryDays now store).2)

/-- `ConsentStorage.updateCategoryConsent` (storage.ts lines 76-90): null
when no valid record exists; otherwise the record is rewritten with the one
category changed and a fresh timestamp.  A throwing `setItem` is caught and
null is returned (the store keeps whatever `getConsent` left in it). -/
def updateCategoryConsent (expiryDays : Nat) (now : Nat) (setFails : Bool)
    (store : Store) (categoryId : String) (value : Bool) :
    Option ConsentState × Store :=
  match (getConsent expiryDays now store).1 with
  | none => (none, (getConsent expiryDays now store).2)
  | some c =>
      let c' : ConsentState :=
        { c with categories := setCat c.categories categoryId value, timestamp := now }
      if setFails then (none, (getConsent expiryDays now store).2)
      else (some c', some (.record c'))

/-- A category declaration (`types.ts`, interface `CookieCategory`). -/
structure CookieCategory where
  id : String
  name : String
  description : String
  required : Bool
deriving DecidableEq, Repr

/-- `CookieDialog.getDefaultCategories` (index.ts): necessary (required),
analytics, marketing. -/
def defaultCategories : List CookieCategory :=
  [ { id := "necessary", name := "Necessary"
      description := "Essential cookies for the website to function properly"
      required := true }
  , { id := "analytics", name := "Analytics"
      description := "Cookies to understand how visitors interact with the website"
      required := false }
  , { id := "marketing", name := "Marketing"
      description := "Cookies to deliver personalized advertisements"
      required := false } ]

/-- Modelled from the spec (not the source): the mapping the spec calls
C-prime, namely the input categories with every category declared required
forced to true.  The source has no such forcing step in `saveConsent`;
this definition exists only to compare the spec text against the code. -/
def specForceRequired (decls : List CookieCategory) (C : Categories) : Categories :=
  C.map (fun p =>
    if decls.any (fun d => d.id = p.1 && d.required) then (p.1, true) else p)

/-! ### Geolocation (`geolocation.ts`, class `GeolocationService`) -/

/-- `GeolocationResponse` (`types.ts`). -/
structure GeolocationResponse where
  inEU : Bool
  country : Option String
  region : Option String
deriving DecidableEq, Repr

/-- The in-memory cache of `GeolocationService`: fields `cache` and
`cacheTimestamp`. -/
structure GeoState where
  cache : Option GeolocationResponse
  cacheTimestamp : Nat
deriving DecidableEq, Repr

/-- `CACHE_DURATION` in `geolocation.ts`: one hour in milliseconds. -/
def CACHE_DURATION : Nat := 3600000

/-- The cache of a freshly constructed `GeolocationService` (also the state
after `clearCache`). -/
def initialGeoState : GeoState := { cache := none, cacheTimestamp := 0 }

/-- The JSON body of a lookup response, restricted to the fields the code
reads; an absent field is `none` (undefined). -/
structure ApiData where
  country_code : Option String
  country_name : Option String
  country : Option String
  region : Option String
  inEU : Option Bool
  in_eu : Option Bool
deriving DecidableEq, Repr

/-- Outcome of the outbound `fetch`: `fails` covers a thrown network error,
a response with `ok` false (the code then throws into its own catch), and a
body that fails to parse; `ok data` is a parsed success body. -/
inductive FetchOutcome where
  | fails
  | ok (data : ApiData)
deriving DecidableEq, Repr

/-- The `euCountries` array in `geolocation.ts` lines 34-38. -/
def euCountries : List String :=
  [ "AT", "BE", "BG", "HR", "CY", "CZ", "DK", "EE", "FI", "FR"
  , "DE", "GR", "HU", "IE", "IT", "LV", "LT", "LU", "MT", "NL"
  , "PL", "PT", "RO", "SK", "SI", "ES", "SE", "GB", "IS", "LI", "NO" ]

/-- Does `pat` occur at the head of `s`? -/
def strHeadMatch : List Char → List Char → Bool
  | [], _ => true
  | _ :: _, [] => false
  | c :: cs, d :: ds => c = d && strHeadMatch cs ds

/-- Does `pat` occur anywhere in `s`? -/
def strSubMatch (pat : List Char) : List Char → Bool
  | [] => pat.isEmpty
  | d :: ds => strHeadMatch pat (d :: ds) || strSubMatch pat ds

/-- JavaScript `s.includes(pat)`: substring containment. -/
def strIncludes (s : String) (pat : String) : Bool :=
  strSubMatch pat.data s.data

/-- The response adapter in `checkLocation` (geolocation.ts lines 32-52):
if the endpoint URL contains the substring ipapi.co, map `country_code`
through `euCountries`; otherwise read `inEU` or `in_eu` directly
(JavaScript `data.inEU || data.in_eu || false` over boolean-or-undefined
fields). -/
def interpretResponse (endpoint : String) (data : ApiData) : GeolocationResponse :=
  if strIncludes endpoint "ipapi.co" then
    { inEU := match data.country_code with
              | none => false
              | some cc => euCountries.contains cc
      country := data.country_name
      region := data.region }
  else
    { inEU := data.inEU.getD false || data.in_eu.getD false
      country := data.country
      region := data.region }

/-- The result of one `checkLocation` call: the returned value, the cache
state afterwards, and whether an outbound lookup was performed. -/
structure CheckResult where
  result : GeolocationResponse
  state : GeoState
  didFetch : Bool
deriving DecidableEq, Repr

/-- The non-cached path of `checkLocation`: perform the lookup; on failure
return the fail-safe result and leave the cache untouched (the code only
assigns `this.cache` on the success path); on success cache and return the
interpreted result. -/
def checkFetch (endpoint : String) (now : Nat) (fetch : FetchOutcome)
    (s : GeoState) : CheckResult :=
  match fetch with
  | .fails =>
      { result := { inEU := true, country := none, region := none }
        state := s
        didFetch := true }
  | .ok data =>
      let r := interpretResponse endpoint data
      { result := r
        state := { cache := some r, cacheTimestamp := now }
        didFetch := true }

/-- `GeolocationService.checkLocation` (geolocation.ts lines 14-68): serve
from cache when present and younger than `CACHE_DURATION`, otherwise fetch. -/
def checkLocation (endpoint : String) (now : Nat) (fetch : FetchOutcome)
    (s : GeoState) : CheckResult :=
  match s.cache with
  | some cached =>
      if (now : Int) - (s.cacheTimestamp : Int) < (CACHE_DURATION : Int) then
        { result := cached, state := s, didFetch := false }
      else
        checkFetch endpoint now fetch s
  | none => checkFetch endpoint now fetch s

/-! ### Orchestrator (`index.ts`, class `CookieDialog`) -/

/-- The configuration after `mergeConfig` and constructor defaulting, plus
which of the optional callbacks the caller supplied. -/
structure Config where
  enableLocation : Bool
  autoShow : Bool
  expiryDays : Nat
  forceShow : Bool
  categories : List CookieCategory
  geolocationEndpoint : String
  hasOnAccept : Bool
  hasOnLocationNotRequired : Bool
deriving Repr

/-- Observable events of one `init()` run, in order: a `checkLocation`
call on the geolocation service, a `saveConsent` persisting a record, a
configured callback firing, or the dialog being shown. -/
inductive Event where
  | resolverCall
  | storageWrite (c : ConsentState)
  | onAccept (c : ConsentState)
  | onLocationNotRequired (country : Option String) (region : Option String)
      (inEU : Bool)
  | showDialog
deriving DecidableEq, Repr

/-- What one `init()` run leaves behind: the event trace, the storage
content and the geolocation cache. -/
structure InitResult where
  events : List Event
  store : Store
  geo : GeoState
deriving DecidableEq, Repr

/-- The all-true category mapping built by the region-exempt branch of
`init` (index.ts lines 181-184) and by `acceptAll`: an empty object filled
by `forEach` assignment. -/
def allTrueCategories (cats : List CookieCategory) : Categories :=
  cats.foldl (fun m cat => setCat m cat.id true) []

/-- The record the region-exempt branch of `init` persists: every declared
category true, reason `location_not_required`, and the lookup result plus
the detection method attached as location data. -/
def mkRegionExempt (cfg : Config) (now : Nat) (data : ApiData) : ConsentState :=
  let r := interpretResponse cfg.geolocationEndpoint data
  { timestamp := now
    categories := allTrueCategories cfg.categories
    version := STORAGE_VERSION
    reason := Reason.location_not_required
    locationData := some { country := r.country, region := r.region
                           inEU := r.inEU
                           detectionMethod := "ip_geolocation" } }

/-- `CookieDialog.init` (index.ts lines 155-224).  Step 1: with `forceShow`
false and a valid stored record, fire `onAccept` with that record and stop.
Step 2: with geolocation enabled, call `checkLocation`; when the result is
not in the EU and `forceShow` is false, save an all-true record with reason
`location_not_required` and location data, fire `onLocationNotRequired`
then `onAccept`, and stop.  Step 3: show the dialog, but only when
`autoShow` is set. -/
def init (cfg : Config) (now : Nat) (setFails : Bool) (fetch : FetchOutcome)
    (store : Store) (geo : GeoState) : InitResult :=
  let hc := hasConsent cfg.expiryDays now store
  if !cfg.forceShow && hc.1 then
    let g1 := getConsent cfg.expiryDays now hc.2
    match g1.1 with
    | some c =>
        { events := if cfg.hasOnAccept then [.onAccept c] else []
          store := g1.2
          geo := geo }
    | none => { events := [], store := g1.2, geo := geo }
  else if cfg.enableLocation then
    let res := checkLocation cfg.geolocationEndpoint now fetch geo
    if !res.result.inEU && !cfg.forceShow then
      let sv := saveConsent now setFails hc.2 (allTrueCategories cfg.categories)
        Reason.location_not_required
        (some { country := res.result.country
                region := res.result.region
                inEU := res.result.inEU
                detectionMethod := "ip_geolocation" })
      { events := [Event.resolverCall, Event.storageWrite sv.1]
          ++ (if cfg.hasOnLocationNotRequired then
                [Event.onLocationNotRequired res.result.country
                  res.result.region res.result.inEU]
              else [])
          ++ (if cfg.hasOnAccept then [Event.onAccept sv.1] else [])
        store := sv.2
        geo := res.state }
    else
      { events := [Event.resolverCall]
          ++ (if cfg.autoShow then [Event.showDialog] else [])
        store := hc.2
        geo := res.state }
  else
    { events := if cfg.autoShow then [Event.showDialog] else []
      store := hc.2
      geo := geo }

/-! ### Sample data used by witnesses -/

/-- A well-formed record written at time 0 with the three default
categories all granted except analytics. -/
def sampleRecord : ConsentState :=
  { timestamp := 0
    categories := [("necessary", true), ("analytics", false), ("marketing", true)]
    version := "1.0.0"
    reason := Reason.user_accept
    locationData := none }

/-- A record carrying a stale schema version. -/
def staleVersionRecord : ConsentState :=
  { sampleRecord with version := "0.9.0" }

/-- A configuration with geolocation off and every option at its
`mergeConfig` default, `onAccept` supplied. -/
def sampleConfig : Config :=
  { enableLocation := false
    autoShow := true
    expiryDays := 365
    forceShow := false
    categories := defaultCategories
    geolocationEndpoint := "https://ipapi.co/json/"
    hasOnAccept := true
    hasOnLocationNotRequired := false }

/-- `sampleConfig` with geolocation on and both hooks supplied. -/
def geoConfig : Config :=
  { sampleConfig with enableLocation := true, hasOnLocationNotRequired := true }

/-- `sampleConfig` with `autoShow` disabled by the caller. -/
def noAutoShowConfig : Config :=
  { sampleConfig with autoShow := false }

/-- A lookup body for a German visitor as served by a non-default provider
that nevertheless has ipapi.co inside its URL: `country_code` says an EU
country while the `inEU` and `in_eu` fields say false. -/
def crossProviderData : ApiData :=
  { country_code := some "DE"
    country_name := some "Germany"
    country := some "Germany"
    region := some "Berlin"
    inEU := some false
    in_eu := some false }

/-- A lookup body for a United States visitor on the default provider. -/
def usVisitorData : ApiData :=
  { country_code := some "US"
    country_name := some "United States"
    country := some "United States"
    region := some "California"
    inEU := none
    in_eu := none }

end CookieDialog

namespace CookieDialog

/-! ## Helper lemmas -/

/-- When `getConsent` returns a record, the store held exactly that record,
it passed the expiry and version checks, and the store is left unchanged. -/
theorem getConsent_eq_some {d now : Nat} {store : Store} {c : ConsentState}
    (h : (getConsent d now store).1 = some c) :
    getConsent d now store = (some c, store)
    ∧ store = some (.record c)
    ∧ now ≤ c.timestamp + d * 24 * 60 * 60 * 1000
    ∧ c.version = STORAGE_VERSION := by
  match store with
  | none => simp [getConsent] at h
  | some .malformed => simp [getConsent] at h
  | some (.record c0) =>
      by_cases hexp : now > c0.timestamp + d * 24 * 60 * 60 * 1000
      · simp [getConsent, hexp] at h
      · by_cases hv : c0.version = STORAGE_VERSION
        · simp [getConsent, hexp, hv] at h
          subst h
          refine ⟨by simp [getConsent, hexp, hv], rfl, by omega, hv⟩
        · simp [getConsent, hexp, hv] at h

/-- Property update hits the updated key. -/
theorem lookupCat_setCat (m : Categories) (id : String) (v : Bool) :
    lookupCat (setCat m id v) id = some v := by
  induction m with
  | nil => simp [setCat, lookupCat]
  | cons p rest ih =>
      by_cases hp : p.1 = id
      · simp [setCat, lookupCat, hp]
      · simp [setCat, lookupCat, hp, ih]

/- ### Claim C1 -/

/-- C1 counterexample: the claim says `read()` right after `write(C, R)`
returns categories equal to C with every required category forced true.
With the default declarations (necessary is required) and
C = [(necessary, false)], the code returns [(necessary, false)] while the
forced mapping is [(necessary, true)]: `saveConsent` performs no forcing. -/
theorem C1_counterexample :
    (let (_, st) := saveConsent 1000 false none [("necessary", false)]
        Reason.user_accept none
     (getConsent 365 1000 st).1.map ConsentState.categories)
      = some [("necessary", false)]
    ∧ specForceRequired defaultCategories [("necessary", false)]
      = [("necessary", true)]
    ∧ ([("necessary", false)] : Categories) ≠ [("necessary", true)] := by
  refine ⟨rfl, rfl, by decide⟩

/-- C1 amended: for every category mapping C and reason R, `read()`
immediately after a successful `write(C, R)` returns a record whose
categories equal C verbatim (no category is forced) and whose reason is R. -/
theorem C1_roundtrip_verbatim (d now : Nat) (store : Store) (C : Categories)
    (R : Reason) (loc : Option LocationData) :
    let (c, st) := saveConsent now false store C R loc
    (getConsent d now st).1 = some c
    ∧ c.categories = C ∧ c.reason = R := by
  simp only [saveConsent, getConsent, if_false]
  refine ⟨?_, rfl, rfl⟩
  simp [STORAGE_VERSION]

/- ### Claim C2 -/

/-- C2 counterexample: the claim says no sequence of store operations can
make `read()` return a record with a required category false.  Starting
from a stored record and calling `updateCategoryConsent` on the required
category necessary with value false, the next `getConsent` returns a record
in which necessary is false. -/
theorem C2_counterexample :
    ((getConsent 365 5
        (updateCategoryConsent 365 5 false (some (.record sampleRecord))
          "necessary" false).2).1.map
      fun x => lookupCat x.categories "necessary") = some (some false)
    ∧ (defaultCategories.any fun d => d.id = "necessary" && d.required) = true := by
  exact ⟨rfl, by decide⟩

/-- C2 amended: the store never enforces required categories.  Whenever a
valid record exists, `updateCategoryConsent id false` (for any id, required
or not) succeeds and the record that `getConsent` then returns carries that
category as false. -/
theorem C2_no_required_enforcement (d now : Nat) (store : Store) (id : String)
    (c : ConsentState) (h : (getConsent d now store).1 = some c) :
    (updateCategoryConsent d now false store id false).1 =
      some { c with categories := setCat c.categories id false, timestamp := now }
    ∧ (getConsent d now (updateCategoryConsent d now false store id false).2).1 =
      (updateCategoryConsent d now false store id false).1
    ∧ ((updateCategoryConsent d now false store id false).1.map
        fun x => lookupCat x.categories id) = some (some false) := by
  obtain ⟨hfull, -, -, hv⟩ := getConsent_eq_some h
  simp only [updateCategoryConsent, h]
  refine ⟨rfl, ?_, by simp [lookupCat_setCat]⟩
  simp [getConsent, hv]

/-- C2 amended, witness: the record of `C2_counterexample` instantiates the
amended statement. -/
theorem C2_no_required_enforcement_witness :
    (updateCategoryConsent 365 5 false (some (.record sampleRecord))
        "necessary" false).1 =
      some { sampleRecord with
              categories := setCat sampleRecord.categories "necessary" false
              timestamp := 5 }
    ∧ (getConsent 365 5
        (updateCategoryConsent 365 5 false (some (.record sampleRecord))
          "necessary" false).2).1 =
      (updateCategoryConsent 365 5 false (some (.record sampleRecord))
        "necessary" false).1
    ∧ ((updateCategoryConsent 365 5 false (some (.record sampleRecord))
          "necessary" false).1.map
        fun x => lookupCat x.categories "necessary") = some (some false) :=
  C2_no_required_enforcement 365 5 (some (.record sampleRecord)) "necessary"
    sampleRecord rfl

/- ### Claim C4 -/

/-- C4 counterexample: the claim says a failing underlying `setItem` makes
every writing operation return the in-memory record rather than an absent
result.  With a valid record in place and `setItem` throwing,
`updateCategoryConsent` returns null (absent), not the updated record. -/
theorem C4_counterexample :
    (updateCategoryConsent 365 5 true (some (.record sampleRecord))
        "analytics" true).1 = none
    ∧ (getConsent 365 5 (some (.record sampleRecord))).1.isSome = true := by
  exact ⟨rfl, rfl⟩

/-- C4 amended: when the underlying `setItem` throws, neither operation
raises; `saveConsent` returns the in-memory record it built and leaves the
store unchanged, while `updateCategoryConsent` returns absent (null) and
leaves the store unchanged. -/
theorem C4_write_failure_behavior (d now : Nat) (store : Store)
    (C : Categories) (R : Reason) (loc : Option LocationData) (id : String)
    (v : Bool) (c : ConsentState) (h : (getConsent d now store).1 = some c) :
    saveConsent now true store C R loc =
      ({ timestamp := now, categories := C, version := STORAGE_VERSION
         reason := R, locationData := loc }, store)
    ∧ updateCategoryConsent d now true store id v = (none, store) := by
  obtain ⟨hfull, -, -, -⟩ := getConsent_eq_some h
  refine ⟨rfl, ?_⟩
  simp only [updateCategoryConsent, h, hfull, if_true]

/-- C4 amended, witness at a concrete store and inputs. -/
theorem C4_write_failure_behavior_witness :
    saveConsent 5 true (some (.record sampleRecord)) [("analytics", true)]
      Reason.user_accept none =
      ({ timestamp := 5, categories := [("analytics", true)]
         version := STORAGE_VERSION, reason := Reason.user_accept
         locationData := none }, some (.record sampleRecord))
    ∧ updateCategoryConsent 365 5 true (some (.record sampleRecord))
        "analytics" true = (none, some (.record sampleRecord)) :=
  C4_write_failure_behavior 365 5 (some (.record sampleRecord))
    [("analytics", true)] Reason.user_accept none "analytics" true
    sampleRecord rfl

/- ### Claim C7 -/

/-- C7: with `expiryDays = d`, a record created at time t is returned at
every read time up to and including t + d * 86400000 with the stored entry
(and its creation timestamp) untouched, and is absent with the entry erased
at every read time from t + d * 86400000 + 1 onward; the window is anchored
at the creation timestamp, never at last access. -/
theorem C7_expiry_boundary (d t now1 now2 : Nat) (c : ConsentState)
    (ht : c.timestamp = t) (hv : c.version = STORAGE_VERSION)
    (h1 : now1 ≤ t + d * 86400000) (h2 : now2 ≥ t + d * 86400000 + 1) :
    getConsent d now1 (some (.record c)) = (some c, some (.record c))
    ∧ getConsent d now2 (some (.record c)) = (none, none) := by
  subst ht
  constructor
  · have hgt : ¬ now1 > c.timestamp + d * 24 * 60 * 60 * 1000 := by omega
    simp [getConsent, hgt, hv]
  · have hgt : now2 > c.timestamp + d * 24 * 60 * 60 * 1000 := by omega
    simp [getConsent, hgt]

/-- C7 witness: one day of expiry around the exact millisecond boundary. -/
theorem C7_expiry_boundary_witness :
    getConsent 1 86400000 (some (.record sampleRecord)) =
      (some sampleRecord, some (.record sampleRecord))
    ∧ getConsent 1 86400001 (some (.record sampleRecord)) = (none, none) :=
  C7_expiry_boundary 1 0 86400000 86400001 sampleRecord rfl rfl
    (by omega) (by omega)

/- ### Claim C9 -/

/-- C9: bytes that fail to parse make `getConsent` return absent while the
stored entry stays in place, so every later read sees the same malformed
bytes again; by contrast an expired or version-mismatched record is erased
(the store becomes empty). -/
theorem C9_malformed_persists (d now : Nat) (c : ConsentState) :
    getConsent d now (some .malformed) = (none, some .malformed)
    ∧ (now > c.timestamp + d * 24 * 60 * 60 * 1000 →
        getConsent d now (some (.record c)) = (none, none))
    ∧ (c.version ≠ STORAGE_VERSION →
        getConsent d now (some (.record c)) = (none, none)) := by
    refine ⟨rfl, fun h => by simp [getConsent, h], fun h => ?_⟩
    by_cases hexp : now > c.timestamp + d * 24 * 60 * 60 * 1000
    · simp [getConsent, hexp]
    · simp [getConsent, hexp, h]

/-- C9 witness: a malformed entry survives a read; an expired record and a
stale-version record are both erased. -/
theorem C9_malformed_persists_witness :
    getConsent 365 5 (some .malformed) = (none, some .malformed)
    ∧ getConsent 365 (10 + 365 * 86400000) (some (.record sampleRecord)) =
      (none, none)
    ∧ getConsent 365 5 (some (.record staleVersionRecord)) = (none, none) :=
  ⟨(C9_malformed_persists 365 5 sampleRecord).1,
   (C9_malformed_persists 365 (10 + 365 * 86400000) sampleRecord).2.1
     (by simp only [sampleRecord]; omega),
   (C9_malformed_persists 365 5 staleVersionRecord).2.2 (by decide)⟩

/- ### Claim C5 -/

/-- C5: with an empty cache, a failing lookup (thrown fetch or non-success
status) makes `checkLocation` return the fail-safe result with
`inEU = true` and no country or region, leaves the cache state untouched,
and a second call at any time with any outcome performs another outbound
lookup instead of serving the failure from cache. -/
theorem C5_failsafe_no_cache (endpoint : String) (now now2 : Nat)
    (fetch2 : FetchOutcome) (s : GeoState) (h : s.cache = none) :
    checkLocation endpoint now .fails s =
      { result := { inEU := true, country := none, region := none }
        state := s, didFetch := true }
    ∧ (checkLocation endpoint now2 fetch2
        (checkLocation endpoint now .fails s).state).didFetch = true := by
  have h1 : checkLocation endpoint now .fails s =
      { result := { inEU := true, country := none, region := none }
        state := s, didFetch := true } := by
    simp [checkLocation, h, checkFetch]
  refine ⟨h1, ?_⟩
  rw [h1]
  cases fetch2 <;> simp [checkLocation, h, checkFetch]

/-- C5 witness: the default endpoint with a fresh service. -/
theorem C5_failsafe_no_cache_witness :
    checkLocation "https://ipapi.co/json/" 50 .fails initialGeoState =
      { result := { inEU := true, country := none, region := none }
        state := initialGeoState, didFetch := true }
    ∧ (checkLocation "https://ipapi.co/json/" 60 .fails
        (checkLocation "https://ipapi.co/json/" 50 .fails
          initialGeoState).state).didFetch = true :=
  C5_failsafe_no_cache "https://ipapi.co/json/" 50 60 .fails
    initialGeoState rfl

/- ### Claim C10 -/

/-- C10: provider dispatch is a substring test on the configured endpoint
URL.  Every endpoint whose URL contains ipapi.co anywhere, caller-supplied
ones included, is read through the country-code-to-EU-set mapping with
`country_name` as the country, and only endpoints without that substring
are read through the `inEU` / `in_eu` boolean fields. -/
theorem C10_substring_dispatch (endpoint : String) (now : Nat)
    (data : ApiData) (s : GeoState) (h : s.cache = none) :
    (strIncludes endpoint "ipapi.co" = true →
      (checkLocation endpoint now (.ok data) s).result =
        { inEU := match data.country_code with
                  | none => false
                  | some cc => euCountries.contains cc
          country := data.country_name
          region := data.region })
    ∧ (strIncludes endpoint "ipapi.co" = false →
      (checkLocation endpoint now (.ok data) s).result =
        { inEU := data.inEU.getD false || data.in_eu.getD false
          country := data.country
          region := data.region }) := by
  constructor <;> intro hi <;>
    simp [checkLocation, h, checkFetch, interpretResponse, hi]

/-- C10 witness: a custom endpoint whose URL merely contains ipapi.co is
interpreted through the EU country set (a DE body with both boolean fields
false still maps to `inEU = true`), while an endpoint without the substring
uses the boolean fields (a US body on the default mapping side). -/
theorem C10_substring_dispatch_witness :
    strIncludes "https://geo.example.com/ipapi.co-proxy" "ipapi.co" = true
    ∧ (checkLocation "https://geo.example.com/ipapi.co-proxy" 0
        (.ok crossProviderData) initialGeoState).result =
      { inEU := true, country := some "Germany", region := some "Berlin" }
    ∧ strIncludes "https://geo.example.com/api" "ipapi.co" = false
    ∧ (checkLocation "https://geo.example.com/api" 0
        (.ok crossProviderData) initialGeoState).result =
      { inEU := false, country := some "Germany", region := some "Berlin" } := by
  refine ⟨by decide, ?_, by decide, ?_⟩
  · have := (C10_substring_dispatch "https://geo.example.com/ipapi.co-proxy"
      0 crossProviderData initialGeoState rfl).1 (by decide)
    simpa [crossProviderData, euCountries] using this
  · have := (C10_substring_dispatch "https://geo.example.com/api"
      0 crossProviderData initialGeoState rfl).2 (by decide)
    simpa [crossProviderData] using this

/- ### Claim C3 -/

/-- C3: when a valid record is stored and `forceShow` is false, `init`
fires the accept callback with exactly the stored record and stops: the
resolver is never called, nothing is written, the storage and the
geolocation cache are left exactly as they were, and no dialog is shown. -/
theorem C3_short_circuit (cfg : Config) (now : Nat) (setFails : Bool)
    (fetch : FetchOutcome) (store : Store) (geo : GeoState)
    (c : ConsentState) (hf : cfg.forceShow = false)
    (ha : cfg.hasOnAccept = true)
    (hc : (getConsent cfg.expiryDays now store).1 = some c) :
    init cfg now setFails fetch store geo =
      { events := [Event.onAccept c], store := store, geo := geo } := by
  obtain ⟨hfull, -, -, -⟩ := getConsent_eq_some hc
  simp [init, hasConsent, hfull, hf, ha]

/-- C3 witness: the default configuration over a stored sample record. -/
theorem C3_short_circuit_witness :
    init sampleConfig 5 false .fails (some (.record sampleRecord))
      initialGeoState =
      { events := [Event.onAccept sampleRecord]
        store := some (.record sampleRecord)
        geo := initialGeoState } :=
  C3_short_circuit sampleConfig 5 false .fails (some (.record sampleRecord))
    initialGeoState sampleRecord rfl rfl rfl

/- ### Claim C6 -/

/-- C6: geolocation enabled, no valid stored record, `forceShow` false, a
successful lookup interpreting to a not-in-EU visitor, both hooks present
and a working store: `init` writes a record with every declared category
true, reason `location_not_required` and the region context (country,
region, inEU flag, detection method ip_geolocation) attached, fires the
region-exempt hook then the accept hook with the new record, caches the
lookup, and shows no dialog. -/
theorem C6_region_exempt_flow (cfg : Config) (now : Nat) (data : ApiData)
    (store : Store) (geo : GeoState) (hel : cfg.enableLocation = true)
    (hf : cfg.forceShow = false)
    (hnc : (getConsent cfg.expiryDays now store).1 = none)
    (hcache : geo.cache = none)
    (hr : (interpretResponse cfg.geolocationEndpoint data).inEU = false)
    (ha : cfg.hasOnAccept = true) (hl : cfg.hasOnLocationNotRequired = true) :
    init cfg now false (.ok data) store geo =
      { events :=
          [Event.resolverCall
          , Event.storageWrite (mkRegionExempt cfg now data)
          , Event.onLocationNotRequired
              (interpretResponse cfg.geolocationEndpoint data).country
              (interpretResponse cfg.geolocationEndpoint data).region false
          , Event.onAccept (mkRegionExempt cfg now data)]
        store := some (.record (mkRegionExempt cfg now data))
        geo := { cache := some (interpretResponse cfg.geolocationEndpoint data)
                 cacheTimestamp := now } } := by
  simp only [init, hasConsent, hnc, Option.isSome_none, Bool.and_false,
    Bool.false_eq_true, if_false, hel, if_true, checkLocation, hcache,
    checkFetch, hf, hr, mkRegionExempt, saveConsent, ha, hl]
  simp

/-- C6 witness: scenario B of the spec, a US visitor on the default
endpoint with the default categories. -/
theorem C6_region_exempt_flow_witness :
    (interpretResponse geoConfig.geolocationEndpoint usVisitorData).inEU
      = false
    ∧ init geoConfig 7 false (.ok usVisitorData) none initialGeoState =
      { events :=
          [Event.resolverCall
          , Event.storageWrite (mkRegionExempt geoConfig 7 usVisitorData)
          , Event.onLocationNotRequired (some "United States")
              (some "California") false
          , Event.onAccept (mkRegionExempt geoConfig 7 usVisitorData)]
        store := some (.record (mkRegionExempt geoConfig 7 usVisitorData))
        geo := { cache := some (interpretResponse
                   geoConfig.geolocationEndpoint usVisitorData)
                 cacheTimestamp := 7 } } := by
  refine ⟨by decide, ?_⟩
  have := C6_region_exempt_flow geoConfig 7 usVisitorData none
    initialGeoState rfl rfl rfl rfl (by decide) rfl rfl
  simpa [interpretResponse, usVisitorData, geoConfig, sampleConfig,
    euCountries, strIncludes] using this

/- ### Claim C8 -/

/-- C8 counterexample: the claim says every configuration that reaches
step 3 shows the prompt.  A caller that sets `autoShow` false, with a fresh
store and geolocation off, reaches step 3 and `init` shows nothing. -/
theorem C8_counterexample :
    init noAutoShowConfig 5 false .fails none initialGeoState =
      { events := [], store := none, geo := initialGeoState }
    ∧ noAutoShowConfig.forceShow = false
    ∧ noAutoShowConfig.enableLocation = false := by
  refine ⟨by decide, rfl, rfl⟩

/-- C8 amended: whenever `init` reaches step 3 (no usable stored record,
and either geolocation is off or the lookup result is in-EU or `forceShow`
is set) it shows the prompt, provided `autoShow` is enabled, which is the
`mergeConfig` default. -/
theorem C8_step3_shows_prompt (cfg : Config) (now : Nat) (setFails : Bool)
    (fetch : FetchOutcome) (store : Store) (geo : GeoState)
    (hshow : cfg.autoShow = true)
    (h1 : cfg.forceShow = true ∨ (getConsent cfg.expiryDays now store).1 = none)
    (h2 : cfg.enableLocation = true →
      (checkLocation cfg.geolocationEndpoint now fetch geo).result.inEU = true
      ∨ cfg.forceShow = true) :
    Event.showDialog ∈ (init cfg now setFails fetch store geo).events := by
  by_cases hel : cfg.enableLocation = true
  · rcases h2 hel with hin | hfs
    · rcases h1 with hfs | hnc
      · simp [init, hel, hin, hshow, hfs]
      · simp [init, hasConsent, hnc, hel, hin, hshow]
    · simp [init, hel, hshow, hfs]
  · replace hel : cfg.enableLocation = false := by
      cases hval : cfg.enableLocation
      · rfl
      · exact absurd hval hel
    rcases h1 with hfs | hnc
    · simp [init, hel, hshow, hfs]
    · simp [init, hasConsent, hnc, hel, hshow]

/-- C8 amended, witness: the default configuration on a fresh environment
shows the prompt. -/
theorem C8_step3_shows_prompt_witness :
    Event.showDialog ∈
      (init sampleConfig 5 false .fails none initialGeoState).events :=
  C8_step3_shows_prompt sampleConfig 5 false .fails none initialGeoState
    rfl (Or.inr rfl) (fun h => by simp [sampleConfig] at h)

end CookieDialog
